import Mathlib

/-!
Verification of the QR-scan attendance widget (`src/App.jsx`).

The development shallowly embeds the two stateful parts of the component:

* the camera capture session of `QrScanner` (`startCamera`, `startScanning`,
  `stopCamera`, refs `streamRef` / `scanIntervalRef`, the browser's table of
  active intervals), and
* the submission flow of `TodoApp` (`handleAddTask`, `handleQrScan`, the
  `taskInput` / `isLoading` / `message` / `showQrScanner` state and the
  `disabled` guards on the input, Add button and QR toggle).

JavaScript strings are modelled as Lean `String`, JS `null`/`undefined` as
`Option`, thrown exceptions inside the `try` block as `Except`, and the
media tracks of a stream as a list of booleans recording whether each track
has been stopped.
-/

namespace TodoSpec

/-! ## Camera session (component `QrScanner`, lines 8–118)

State of one `QrScanner` instance together with the browser timer table:
`hasStream` is whether `streamRef.current` is non-null, `tracks` the stopped
flag of each media track of the (last acquired) stream, `scanInterval` the
value of `scanIntervalRef.current`, `activeIntervals` the ids of intervals
currently scheduled by the browser, and `nextId` the next fresh interval id
(browsers allocate positive ids, so we start at 1). -/

structure CamState where
  hasStream : Bool
  tracks : List Bool
  scanInterval : Option Nat
  activeIntervals : List Nat
  nextId : Nat
deriving DecidableEq, Repr

def camInit : CamState := ⟨false, [], none, [], 1⟩

/-- Success path of `startCamera` (lines 17–31): `getUserMedia` grants a
stream with `n` live (not stopped) tracks and it is stored in
`streamRef.current`. Zoom negotiation (lines 33–47) touches only the zoom
UI state and the device, not this state, and is omitted. -/
def startCameraM (s : CamState) (n : Nat) : CamState :=
  { s with hasStream := true, tracks := List.replicate n false }

/-- The `startScanning` function (lines 68–94): stores a fresh interval id in
`scanIntervalRef.current` and schedules it. -/
def startScanningM (s : CamState) : CamState :=
  { s with scanInterval := some s.nextId,
           activeIntervals := s.nextId :: s.activeIntervals,
           nextId := s.nextId + 1 }

/-- The `stopCamera` function (lines 58–66): if a stream is held, stop every
track and null the ref; if `scanIntervalRef.current` is set, `clearInterval`
it. Note the source never resets `scanIntervalRef.current` to null. -/
def stopCamera (s : CamState) : CamState :=
  let s1 := if s.hasStream then
      { s with tracks := s.tracks.map fun _ => true, hasStream := false }
    else s
  match s1.scanInterval with
  | some id => { s1 with activeIntervals := s1.activeIntervals.filter fun x => x != id }
  | none => s1

/-- A sampling timer is live: the id held in `scanIntervalRef.current` is
still scheduled in the browser. -/
def timerActive (s : CamState) : Prop :=
  ∃ id, s.scanInterval = some id ∧ id ∈ s.activeIntervals

/-- Operations a `QrScanner` instance actually performs, in source order: a
full successful start (`startCamera` whose `onloadedmetadata` callback runs
`startScanning`, lines 17–49) or `stopCamera`. -/
inductive CamOp
  | fullStart (n : Nat)
  | stop
deriving DecidableEq, Repr

def applyOp (s : CamState) : CamOp → CamState
  | .fullStart n => startScanningM (startCameraM s n)
  | .stop => stopCamera s

def camRun (ops : List CamOp) : CamState :=
  ops.foldl applyOp camInit

lemma stopCamera_hasStream (s : CamState) : (stopCamera s).hasStream = false := by
  rcases s with ⟨hs, tr, si, ai, ni⟩
  cases hs <;> cases si <;> simp [stopCamera]

lemma stopCamera_scanInterval (s : CamState) :
    (stopCamera s).scanInterval = s.scanInterval := by
  rcases s with ⟨hs, tr, si, ai, ni⟩
  cases hs <;> cases si <;> simp [stopCamera]

lemma stopCamera_not_timerActive (s : CamState) : ¬ timerActive (stopCamera s) := by
  rcases s with ⟨hs, tr, si, ai, ni⟩
  rintro ⟨id, h1, h2⟩
  cases hs <;> cases si <;>
    simp [stopCamera, timerActive] at h1 h2 <;>
    simp [h1, List.mem_filter] at h2

lemma applyOp_inv (s : CamState) (op : CamOp) :
    timerActive (applyOp s op) ↔ (applyOp s op).hasStream = true := by
  cases op with
  | fullStart n =>
    constructor
    · intro _; rfl
    · intro _
      exact ⟨s.nextId, rfl, List.mem_cons_self _ _⟩
  | stop =>
    simp [applyOp, stopCamera_hasStream]
    exact stopCamera_not_timerActive s

lemma camRun_foldl_inv (ops : List CamOp) (s : CamState)
    (h : timerActive s ↔ s.hasStream = true) :
    timerActive (ops.foldl applyOp s) ↔ (ops.foldl applyOp s).hasStream = true := by
  induction ops generalizing s with
  | nil => exact h
  | cons op ops ih =>
    exact ih (applyOp s op) (applyOp_inv s op)

lemma stopCamera_idem (s : CamState) : stopCamera (stopCamera s) = stopCamera s := by
  rcases s with ⟨hs, tr, si, ai, ni⟩
  cases hs <;> cases si <;> simp [stopCamera, List.filter_filter]

lemma stopCamera_tracks_stopped (s : CamState) (h : s.hasStream = true) :
    ∀ b ∈ (stopCamera s).tracks, b = true := by
  rcases s with ⟨hs, tr, si, ai, ni⟩
  subst h
  cases si <;> simp [stopCamera]

lemma stopCamera_cancels (s : CamState) (id : Nat) (h : s.scanInterval = some id) :
    id ∉ (stopCamera s).activeIntervals := by
  rcases s with ⟨hs, tr, si, ai, ni⟩
  subst h
  cases hs <;> simp [stopCamera, List.mem_filter]

/-! ## Submission flow (component `TodoApp`, lines 190–408)

JS string helpers used by the source: `String.prototype.trim`, the `||`
default on the `attendanceId` argument (a JS falsy check, so the empty
string also falls through), and `toUpperCase`, which on the ASCII strings
involved agrees with per-character `Char.toUpper`. -/

def jsIsWs (c : Char) : Bool :=
  c == ' ' || c == '\t' || c == '\n' || c == '\r'

def jsTrim (s : String) : String :=
  ⟨((s.data.dropWhile jsIsWs).reverse.dropWhile jsIsWs).reverse⟩

def jsOr (a : Option String) (b : String) : String :=
  match a with
  | some s => if s = "" then b else s
  | none => b

def jsToUpper (s : String) : String := ⟨s.data.map Char.toUpper⟩

/-- JS `s.slice(0, n)`: the first `n` characters of `s` (shorter strings are
returned whole). -/
def jsSlice (s : String) (n : Nat) : String := ⟨s.data.take n⟩

/-- One summary entry of the response: `{ email, data?: { output?: { data?:
{ code? } } } }` (spec §6); each `Option` is a link that may be absent. -/
structure EInner where
  code : Option String
deriving DecidableEq, Repr

structure EOutput where
  data : Option EInner
deriving DecidableEq, Repr

structure EData where
  output : Option EOutput
deriving DecidableEq, Repr

structure Entry where
  email : String
  data : Option EData
deriving DecidableEq, Repr

/-- The optional chain `user.data?.output?.data?.code` (line 224): short-
circuits to `undefined` (here `none`) at the first absent link, never
throwing. -/
def getCode (u : Entry) : Option String :=
  u.data.bind fun d => d.output.bind fun o => o.data.bind fun i => i.code

def attendanceNotValid : String := "ATTENDANCE_NOT_VALID"

/-- The filter predicate of line 224:
`user.data?.output?.data?.code === "ATTENDANCE_NOT_VALID"`. -/
def isFailedUser (u : Entry) : Bool :=
  getCode u == some attendanceNotValid

/-- The `summary` field of the parsed body: either a usable array of entries,
or absent / null / not an array (in which case `.filter` on it throws). -/
inductive SummaryField
  | bad
  | arr (entries : List Entry)
deriving DecidableEq, Repr

/-- Outcome of `response.json()`: rejects on malformed JSON, else a body
whose `summary` field is as above. -/
inductive JsonBody
  | parseErr
  | parsed (summary : SummaryField)
deriving DecidableEq, Repr

/-- Outcome of the `fetch` call (line 211): network rejection, or a response
with its `ok` flag and body. -/
inductive FetchResult
  | reject
  | resolve (ok : Bool) (body : JsonBody)
deriving DecidableEq, Repr

/-- Transport-level failures in the sense of spec §4.3 / §7(d): non-success
response, network error, or malformed JSON. -/
def isTransportFailure : FetchResult → Bool
  | .reject => true
  | .resolve false _ => true
  | .resolve true .parseErr => true
  | .resolve true (.parsed _) => false

/-- The `message` state (line 193): `{ text, isSuccess }`. -/
structure Msg where
  text : Option String
  isSuccess : Bool
deriving DecidableEq, Repr

/-- The `TodoApp` state (lines 191–194), extended with `inFlight`, the number
of started-but-unresolved `handleAddTask` invocations (observable in the
running program as pending promises). -/
structure TodoState where
  taskInput : String
  isLoading : Bool
  message : Msg
  showQrScanner : Bool
  inFlight : Nat
deriving DecidableEq, Repr

def initState : TodoState := ⟨"", false, ⟨none, false⟩, false, 0⟩

def pleaseEnterMsg : Msg := ⟨some "Please enter a task or scan QR", false⟩

def successMsg : Msg := ⟨some "✅ Task completed successfully!", true⟩

def genericFailText : String := "❌ Failed to process task. Please try again."

def failHeader : String := "❌ Some tasks failed:\n"

/-- One line of the validation-failure message (lines 235–239):
`${email.slice(0, 11).toUpperCase()}: ${reasonCode}`. -/
def failLine (u : Entry) : String :=
  jsToUpper (jsSlice u.email 11) ++ ": " ++ (getCode u).getD "undefined"

/-- The `try` block of `handleAddTask` (lines 210–245), given the fetch
outcome: `.error` is a thrown exception (the explicit `throw` on line 218, a
fetch/json rejection, or the `TypeError` from `result.summary.filter` when
`summary` is unusable). -/
def tryBlock (st : TodoState) (f : FetchResult) : Except String TodoState :=
  match f with
  | .reject => .error "network error"
  | .resolve ok body =>
    if ok = false then .error "Failed to communicate with the server."
    else match body with
      | .parseErr => .error "malformed JSON body"
      | .parsed .bad => .error "TypeError: summary is not an array"
      | .parsed (.arr entries) =>
        let failedUsers := entries.filter isFailedUser
        if failedUsers.length = 0 then
          .ok { st with message := successMsg, taskInput := "", showQrScanner := false }
        else
          let failedMessages := failedUsers.map failLine
          .ok { st with
                message := ⟨some (failHeader ++ String.intercalate "\n" failedMessages),
                            false⟩ }

/-- Resolution of a started submission: the `try`/`catch` (lines 246–251)
mapping any thrown error to the generic failure message, then the `finally`
(lines 252–254) clearing `isLoading`. -/
def submitFinish (st : TodoState) (f : FetchResult) : TodoState :=
  let r := match tryBlock st f with
    | .ok s => s
    | .error _ => { st with message := ⟨some genericFailText, false⟩ }
  { r with isLoading := false }

/-- The synchronous prefix of `handleAddTask` (lines 196–208): compute
`inputValue = attendanceId || taskInput.trim()`; on empty input set the
prompt message and return without a request, otherwise set `isLoading`,
clear the message and start the request (returning its body string). -/
def submitStart (st : TodoState) (attendanceId : Option String) :
    TodoState × Option String :=
  let inputValue := jsOr attendanceId (jsTrim st.taskInput)
  if inputValue = "" then
    ({ st with message := pleaseEnterMsg }, none)
  else
    ({ st with isLoading := true, message := ⟨none, false⟩,
               inFlight := st.inFlight + 1 }, some inputValue)

/-- A whole `handleAddTask` invocation run to completion against fetch
outcome `f`; the second component lists the `attendanceId` payloads of the
HTTP requests it issued. -/
def handleAddTask (st : TodoState) (attendanceId : Option String)
    (f : FetchResult) : TodoState × List String :=
  match submitStart st attendanceId with
  | (st1, none) => (st1, [])
  | (st1, some v) => ({ submitFinish st1 f with inFlight := st1.inFlight - 1 }, [v])

/-- The text entry's `disabled={isLoading}` (line 365). -/
def inputDisabled (st : TodoState) : Bool := st.isLoading

/-- The Add button's `disabled={isLoading || !taskInput.trim()}` (line 390). -/
def addButtonDisabled (st : TodoState) : Bool :=
  st.isLoading || jsTrim st.taskInput == ""

/-- User-visible events of the rendered component: typing in the entry,
pressing Enter in it, clicking Add, clicking the QR toggle, the scan
callback firing (`onScan`, possible whenever the scanner is mounted, i.e.
`showQrScanner` is true, and only with nonempty decoded text, line 86), and
one outstanding submission resolving with fetch outcome `f`. -/
inductive Event
  | typeInput (s : String)
  | pressEnter
  | clickAdd
  | clickQrToggle
  | qrScanned (d : String)
  | resolveSubmission (f : FetchResult)
deriving DecidableEq, Repr

/-- One step of the UI. Guards come from the source: typing and the QR
toggle are blocked by `disabled={isLoading}` (lines 365, 374); Enter
requires `taskInput.trim() && !isLoading` (line 367); Add requires its
`disabled` to be false (line 390); `handleQrScan` (lines 257–262) sets the
input, hides the scanner and calls `handleAddTask(scannedData)` with no
`isLoading` check; resolution applies `submitFinish` to the current state. -/
def step (st : TodoState) : Event → TodoState
  | .typeInput s => if st.isLoading then st else { st with taskInput := s }
  | .pressEnter =>
      if jsTrim st.taskInput != "" && !st.isLoading then (submitStart st none).1 else st
  | .clickAdd =>
      if addButtonDisabled st then st else (submitStart st none).1
  | .clickQrToggle =>
      if st.isLoading then st else { st with showQrScanner := !st.showQrScanner }
  | .qrScanned d =>
      if st.showQrScanner && d != "" then
        (submitStart { st with taskInput := d, showQrScanner := false } (some d)).1
      else st
  | .resolveSubmission f =>
      if 0 < st.inFlight then
        { submitFinish st f with inFlight := st.inFlight - 1 }
      else st

def runEvents (es : List Event) : TodoState :=
  es.foldl step initState

def isQrScanEvent : Event → Bool
  | .qrScanned _ => true
  | _ => false

/-- States in which at most one submission is pending and the `isLoading`
flag tracks it. -/
def noConcur (st : TodoState) : Prop :=
  st.inFlight ≤ 1 ∧ (st.isLoading = true ↔ st.inFlight = 1)

/-! ## Lemmas about the submission flow -/

lemma submitFinish_isLoading (st : TodoState) (f : FetchResult) :
    (submitFinish st f).isLoading = false := rfl

lemma tryBlock_transport_error (st : TodoState) (f : FetchResult)
    (h : isTransportFailure f = true) : ∃ e, tryBlock st f = Except.error e := by
  cases f with
  | reject => exact ⟨_, rfl⟩
  | resolve ok body =>
    cases ok with
    | false => exact ⟨_, rfl⟩
    | true =>
      cases body with
      | parseErr => exact ⟨_, rfl⟩
      | parsed s => simp [isTransportFailure] at h

lemma submitFinish_of_error (st : TodoState) (f : FetchResult) (e : String)
    (h : tryBlock st f = Except.error e) :
    submitFinish st f =
      { st with message := ⟨some genericFailText, false⟩, isLoading := false } := by
  unfold submitFinish
  rw [h]

/-- The state right after the synchronous start of a nonempty submission
(lines 207–208). -/
def loadingState (st : TodoState) : TodoState :=
  { st with isLoading := true, message := ⟨none, false⟩, inFlight := st.inFlight + 1 }

lemma handleAddTask_started (st : TodoState) (a : Option String) (f : FetchResult)
    (h : jsOr a (jsTrim st.taskInput) ≠ "") :
    handleAddTask st a f =
      ({ (submitFinish (loadingState st) f) with inFlight := st.inFlight },
       [jsOr a (jsTrim st.taskInput)]) := by
  simp only [handleAddTask, submitStart]
  rw [if_neg h]
  rfl

lemma handleAddTask_transport (st : TodoState) (a : Option String) (f : FetchResult)
    (h : jsOr a (jsTrim st.taskInput) ≠ "") (hf : isTransportFailure f = true) :
    handleAddTask st a f =
      ({ st with message := ⟨some genericFailText, false⟩, isLoading := false },
       [jsOr a (jsTrim st.taskInput)]) := by
  obtain ⟨e, he⟩ := tryBlock_transport_error (loadingState st) f hf
  rw [handleAddTask_started st a f h, submitFinish_of_error _ f e he]
  rfl

lemma generic_ne_validation (s : String) : genericFailText ≠ failHeader ++ s := by
  intro h
  have hd := congrArg String.data h
  rw [String.data_append] at hd
  have hp : failHeader.data <+: genericFailText.data := ⟨s.data, hd.symm⟩
  rw [List.prefix_iff_eq_take] at hp
  exact absurd hp (by decide)

/-- C5: for every transport-level failure (non-success HTTP response, network
error, or malformed JSON body) the submission resolves to the single generic
failure message, the input is untouched, exactly one request was issued, and
the generic text is distinct from every per-entry validation-failure text
(which always extends `failHeader`). -/
theorem c5_transport_failure_generic (st : TodoState) (a : Option String)
    (f : FetchResult) (h : jsOr a (jsTrim st.taskInput) ≠ "")
    (hf : isTransportFailure f = true) :
    (handleAddTask st a f).1.message = ⟨some genericFailText, false⟩ ∧
    (handleAddTask st a f).1.taskInput = st.taskInput ∧
    (handleAddTask st a f).2 = [jsOr a (jsTrim st.taskInput)] ∧
    ∀ s : String, genericFailText ≠ failHeader ++ s := by
  rw [handleAddTask_transport st a f h hf]
  exact ⟨rfl, rfl, rfl, generic_ne_validation⟩

/-- Closed instance of `c5_transport_failure_generic`: an HTTP-level failure
on input "x" yields the generic failure message and clears nothing. -/
theorem c5_transport_failure_generic_witness :
    jsOr none (jsTrim "x") ≠ "" ∧
    isTransportFailure (FetchResult.resolve false .parseErr) = true ∧
    (handleAddTask ⟨"x", false, ⟨none, false⟩, false, 0⟩ none
        (FetchResult.resolve false .parseErr)).1.message =
      ⟨some genericFailText, false⟩ :=
  ⟨by decide, by decide,
    (c5_transport_failure_generic ⟨"x", false, ⟨none, false⟩, false, 0⟩ none
      (FetchResult.resolve false .parseErr) (by decide) (by decide)).1⟩

/-- C8: a body that parses as JSON but whose `summary` is absent, null or not
an array makes `result.summary.filter` throw inside the `try` block; the
error is caught, the whole invocation yields exactly the state a network
error yields, and the message is the generic one (no per-entry text). -/
theorem c8_bad_summary_like_network (st : TodoState) (a : Option String)
    (h : jsOr a (jsTrim st.taskInput) ≠ "") :
    (∃ e, tryBlock (loadingState st) (FetchResult.resolve true (.parsed .bad)) =
        Except.error e) ∧
    handleAddTask st a (FetchResult.resolve true (.parsed .bad)) =
      handleAddTask st a FetchResult.reject ∧
    (handleAddTask st a (FetchResult.resolve true (.parsed .bad))).1.message =
      ⟨some genericFailText, false⟩ := by
  refine ⟨⟨_, rfl⟩, ?_, ?_⟩
  · rw [handleAddTask_started st a (FetchResult.resolve true (.parsed .bad)) h,
        handleAddTask_started st a FetchResult.reject h]
    rfl
  · rw [handleAddTask_started st a (FetchResult.resolve true (.parsed .bad)) h]
    rfl

/-- Closed instance of `c8_bad_summary_like_network` at input "x". -/
theorem c8_bad_summary_like_network_witness :
    jsOr none (jsTrim "x") ≠ "" ∧
    handleAddTask ⟨"x", false, ⟨none, false⟩, false, 0⟩ none
        (FetchResult.resolve true (.parsed .bad)) =
      handleAddTask ⟨"x", false, ⟨none, false⟩, false, 0⟩ none FetchResult.reject :=
  ⟨by decide,
    (c8_bad_summary_like_network ⟨"x", false, ⟨none, false⟩, false, 0⟩ none
      (by decide)).2.1⟩

/-- C6: with no scanned value and an empty or whitespace-only input,
`handleAddTask` issues no request, leaves `isLoading` unset and `inFlight`
unchanged, and sets the "please enter" status message. -/
theorem c6_empty_input_no_request (st : TodoState) (f : FetchResult)
    (hl : st.isLoading = false)
    (hw : ∀ c ∈ st.taskInput.data, jsIsWs c = true) :
    (handleAddTask st none f).2 = [] ∧
    (handleAddTask st none f).1.isLoading = false ∧
    (handleAddTask st none f).1.message = pleaseEnterMsg ∧
    (handleAddTask st none f).1.inFlight = st.inFlight := by
  have h1 : st.taskInput.data.dropWhile jsIsWs = [] :=
    List.dropWhile_eq_nil_iff.mpr hw
  have ht : jsTrim st.taskInput = "" := by
    unfold jsTrim
    rw [h1]
    rfl
  have h2 : jsOr none (jsTrim st.taskInput) = "" := by
    rw [ht]
    rfl
  simp only [handleAddTask, submitStart]
  rw [if_pos h2]
  exact ⟨rfl, hl, rfl, rfl⟩

/-- Closed instance of `c6_empty_input_no_request` on the whitespace-only
input "  ". -/
theorem c6_empty_input_no_request_witness :
    (∀ c ∈ ("  " : String).data, jsIsWs c = true) ∧
    (handleAddTask ⟨"  ", false, ⟨none, false⟩, false, 0⟩ none FetchResult.reject).2 = [] ∧
    (handleAddTask ⟨"  ", false, ⟨none, false⟩, false, 0⟩ none
        FetchResult.reject).1.message = pleaseEnterMsg :=
  ⟨by decide,
    (c6_empty_input_no_request ⟨"  ", false, ⟨none, false⟩, false, 0⟩
      FetchResult.reject rfl (by decide)).1,
    (c6_empty_input_no_request ⟨"  ", false, ⟨none, false⟩, false, 0⟩
      FetchResult.reject rfl (by decide)).2.2.1⟩

lemma submitFinish_entries_ok (st : TodoState) (entries : List Entry)
    (hlen : (entries.filter isFailedUser).length = 0) :
    submitFinish st (FetchResult.resolve true (.parsed (.arr entries))) =
      { st with message := successMsg, taskInput := "", showQrScanner := false,
                isLoading := false } := by
  simp only [submitFinish, tryBlock]
  rw [if_neg (by decide : ¬ (true = false)), if_pos hlen]

lemma submitFinish_entries_fail (st : TodoState) (entries : List Entry)
    (hlen : ¬ (entries.filter isFailedUser).length = 0) :
    submitFinish st (FetchResult.resolve true (.parsed (.arr entries))) =
      { st with
        message := ⟨some (failHeader ++ String.intercalate "\n"
          ((entries.filter isFailedUser).map failLine)), false⟩,
        isLoading := false } := by
  simp only [submitFinish, tryBlock]
  rw [if_neg (by decide : ¬ (true = false)), if_neg hlen]

/-- C4: a summary with zero entries whose nested code is
`ATTENDANCE_NOT_VALID` (entries without the code count as successes) makes
the submission resolve to the success outcome and clears the input field. -/
theorem c4_all_success_clears_input (st : TodoState) (a : Option String)
    (entries : List Entry) (h : jsOr a (jsTrim st.taskInput) ≠ "")
    (hall : ∀ u ∈ entries, isFailedUser u = false) :
    (handleAddTask st a (FetchResult.resolve true (.parsed (.arr entries)))).1.message
      = successMsg ∧
    (handleAddTask st a (FetchResult.resolve true (.parsed (.arr entries)))).1.taskInput
      = "" ∧
    (handleAddTask st a (FetchResult.resolve true (.parsed (.arr entries)))).2
      = [jsOr a (jsTrim st.taskInput)] := by
  have hnil : entries.filter isFailedUser = [] :=
    List.filter_eq_nil_iff.mpr fun u hu => by simp [hall u hu]
  rw [handleAddTask_started st a _ h,
    submitFinish_entries_ok _ entries (by rw [hnil]; rfl)]
  exact ⟨rfl, rfl, rfl⟩

/-- Closed instance of `c4_all_success_clears_input`: an entry with no
nested code at all counts as a success, so the outcome is success and the
input "hello" is cleared. -/
theorem c4_all_success_clears_input_witness :
    (∀ u ∈ [(⟨"bob@example.com", none⟩ : Entry)], isFailedUser u = false) ∧
    (handleAddTask ⟨"hello", false, ⟨none, false⟩, false, 0⟩ none
        (FetchResult.resolve true (.parsed (.arr [⟨"bob@example.com", none⟩])))).1.message
      = successMsg ∧
    (handleAddTask ⟨"hello", false, ⟨none, false⟩, false, 0⟩ none
        (FetchResult.resolve true (.parsed (.arr [⟨"bob@example.com", none⟩])))).1.taskInput
      = "" :=
  ⟨by decide,
    (c4_all_success_clears_input ⟨"hello", false, ⟨none, false⟩, false, 0⟩ none
      [⟨"bob@example.com", none⟩] (by decide) (by decide)).1,
    (c4_all_success_clears_input ⟨"hello", false, ⟨none, false⟩, false, 0⟩ none
      [⟨"bob@example.com", none⟩] (by decide) (by decide)).2.1⟩

/-- C3: if at least one entry fails with `ATTENDANCE_NOT_VALID`, the outcome
is a failure whose text is the header followed by one line per failed entry,
each line being the first 11 characters of the entry email upper-cased, then
": ", then the failure code; the input field is not cleared. -/
theorem c3_validation_failure_message (st : TodoState) (a : Option String)
    (entries : List Entry) (h : jsOr a (jsTrim st.taskInput) ≠ "")
    (hex : ∃ u ∈ entries, isFailedUser u = true) :
    (handleAddTask st a (FetchResult.resolve true (.parsed (.arr entries)))).1.taskInput
      = st.taskInput ∧
    (handleAddTask st a
        (FetchResult.resolve true (.parsed (.arr entries)))).1.message.isSuccess
      = false ∧
    (handleAddTask st a
        (FetchResult.resolve true (.parsed (.arr entries)))).1.message.text
      = some (failHeader ++ String.intercalate "\n"
          ((entries.filter isFailedUser).map failLine)) ∧
    ∀ u ∈ entries, isFailedUser u = true →
      failLine u = jsToUpper (jsSlice u.email 11) ++ ": " ++ attendanceNotValid ∧
      failLine u ∈ (entries.filter isFailedUser).map failLine := by
  obtain ⟨u0, hu0, hf0⟩ := hex
  have hne : entries.filter isFailedUser ≠ [] :=
    List.ne_nil_of_mem (List.mem_filter.mpr ⟨hu0, hf0⟩)
  have hlen : ¬ (entries.filter isFailedUser).length = 0 := by
    simpa [List.length_eq_zero] using hne
  rw [handleAddTask_started st a _ h, submitFinish_entries_fail _ entries hlen]
  refine ⟨rfl, rfl, rfl, fun u hu hfu => ⟨?_, ?_⟩⟩
  · have hc : getCode u = some attendanceNotValid := by
      simpa [isFailedUser] using hfu
    simp [failLine, hc]
  · exact List.mem_map_of_mem _ (List.mem_filter.mpr ⟨hu, hfu⟩)

/-- Closed instance of `c3_validation_failure_message`: the entry for
"alice@example.com" failing with `ATTENDANCE_NOT_VALID` produces the line
"ALICE@EXAMP: ATTENDANCE_NOT_VALID" and the input is not cleared. -/
theorem c3_validation_failure_message_witness :
    (handleAddTask ⟨"kept", false, ⟨none, false⟩, false, 0⟩ (some "abc")
        (FetchResult.resolve true (.parsed (.arr
          [⟨"alice@example.com",
            some ⟨some ⟨some ⟨some "ATTENDANCE_NOT_VALID"⟩⟩⟩⟩])))).1.message.text
      = some "❌ Some tasks failed:\nALICE@EXAMP: ATTENDANCE_NOT_VALID" ∧
    (handleAddTask ⟨"kept", false, ⟨none, false⟩, false, 0⟩ (some "abc")
        (FetchResult.resolve true (.parsed (.arr
          [⟨"alice@example.com",
            some ⟨some ⟨some ⟨some "ATTENDANCE_NOT_VALID"⟩⟩⟩⟩])))).1.taskInput
      = "kept" := by
  have h := c3_validation_failure_message ⟨"kept", false, ⟨none, false⟩, false, 0⟩
    (some "abc")
    [⟨"alice@example.com", some ⟨some ⟨some ⟨some "ATTENDANCE_NOT_VALID"⟩⟩⟩⟩]
    (by decide)
    ⟨⟨"alice@example.com", some ⟨some ⟨some ⟨some "ATTENDANCE_NOT_VALID"⟩⟩⟩⟩,
      by decide, by decide⟩
  exact ⟨h.2.2.1.trans (by decide), h.1⟩

/-- C9: an entry is classified as failed exactly when the whole nested path
`data.output.data.code` is present and equal to `ATTENDANCE_NOT_VALID`; any
absent link makes the optional chain yield `undefined`, so the entry counts
as a success, and the classification is a total boolean (it cannot throw). -/
theorem c9_optional_chain_classification (u : Entry) :
    (isFailedUser u = true ↔
      ∃ d o i, u.data = some d ∧ d.output = some o ∧ o.data = some i ∧
        i.code = some attendanceNotValid) ∧
    (u.data = none → isFailedUser u = false) ∧
    (∀ d, u.data = some d → d.output = none → isFailedUser u = false) ∧
    (∀ d o, u.data = some d → d.output = some o → o.data = none →
      isFailedUser u = false) ∧
    (∀ d o i, u.data = some d → d.output = some o → o.data = some i →
      i.code = none → isFailedUser u = false) := by
  obtain ⟨em, d⟩ := u
  refine ⟨?_, ?_, ?_, ?_, ?_⟩
  · cases d with
    | none => simp [isFailedUser, getCode]
    | some dd =>
      obtain ⟨o⟩ := dd
      cases o with
      | none => simp [isFailedUser, getCode]
      | some oo =>
        obtain ⟨i⟩ := oo
        cases i with
        | none => simp [isFailedUser, getCode]
        | some ii =>
          obtain ⟨c⟩ := ii
          cases c with
          | none => simp [isFailedUser, getCode]
          | some s => simp [isFailedUser, getCode]
  · intro h1
    have e1 : d = none := h1
    simp [isFailedUser, getCode, e1]
  · intro d2 h1 h2
    have e1 : d = some d2 := h1
    simp [isFailedUser, getCode, e1, h2]
  · intro d2 o h1 h2 h3
    have e1 : d = some d2 := h1
    simp [isFailedUser, getCode, e1, h2, h3]
  · intro d2 o i h1 h2 h3 h4
    have e1 : d = some d2 := h1
    simp [isFailedUser, getCode, e1, h2, h3, h4]

/-- Closed instance of `c9_optional_chain_classification`: an entry with no
`data` at all is a success, and the fully-present alice entry is a failure. -/
theorem c9_optional_chain_classification_witness :
    isFailedUser ⟨"bob@example.com", none⟩ = false ∧
    isFailedUser ⟨"alice@example.com",
      some ⟨some ⟨some ⟨some "ATTENDANCE_NOT_VALID"⟩⟩⟩⟩ = true :=
  ⟨(c9_optional_chain_classification ⟨"bob@example.com", none⟩).2.1 rfl,
    (c9_optional_chain_classification ⟨"alice@example.com",
        some ⟨some ⟨some ⟨some "ATTENDANCE_NOT_VALID"⟩⟩⟩⟩).1.mpr
      ⟨_, _, _, rfl, rfl, rfl, rfl⟩⟩

/-- C10 fails as stated: this run starts a request (the success path on
input "task"), yet afterwards the submit affordance is still disabled,
because the success path cleared the input and the Add button is disabled
whenever `taskInput.trim()` is empty (line 390). -/
theorem c10_counterexample :
    (handleAddTask ⟨"task", false, ⟨none, false⟩, false, 0⟩ none
        (FetchResult.resolve true (.parsed (.arr [])))).2 ≠ [] ∧
    addButtonDisabled (handleAddTask ⟨"task", false, ⟨none, false⟩, false, 0⟩ none
        (FetchResult.resolve true (.parsed (.arr [])))).1 = true := by
  decide

/-- C10 (amended): every invocation of `handleAddTask` that starts a request
resets `isLoading` on all completion paths (success, validation failure and
transport failure alike), so the text entry is re-enabled; the Add button is
then disabled only by emptiness of the trimmed input (as after a successful
submission, which clears it), never by the in-flight flag. -/
theorem c10_loading_always_reset (st : TodoState) (a : Option String)
    (f : FetchResult) (h : (handleAddTask st a f).2 ≠ []) :
    (handleAddTask st a f).1.isLoading = false ∧
    inputDisabled (handleAddTask st a f).1 = false ∧
    addButtonDisabled (handleAddTask st a f).1 =
      (jsTrim (handleAddTask st a f).1.taskInput == "") := by
  by_cases hv : jsOr a (jsTrim st.taskInput) = ""
  · exfalso
    apply h
    simp only [handleAddTask, submitStart]
    rw [if_pos hv]
  · rw [handleAddTask_started st a f hv]
    refine ⟨rfl, rfl, ?_⟩
    show (false || _) = _
    rw [Bool.false_or]

/-- Closed instance of `c10_loading_always_reset`: after a transport failure
on input "task" the in-flight flag is reset and the entry re-enabled. -/
theorem c10_loading_always_reset_witness :
    (handleAddTask ⟨"task", false, ⟨none, false⟩, false, 0⟩ none
        FetchResult.reject).2 ≠ [] ∧
    (handleAddTask ⟨"task", false, ⟨none, false⟩, false, 0⟩ none
        FetchResult.reject).1.isLoading = false ∧
    inputDisabled (handleAddTask ⟨"task", false, ⟨none, false⟩, false, 0⟩ none
        FetchResult.reject).1 = false :=
  ⟨by decide,
    (c10_loading_always_reset ⟨"task", false, ⟨none, false⟩, false, 0⟩ none
      FetchResult.reject (by decide)).1,
    (c10_loading_always_reset ⟨"task", false, ⟨none, false⟩, false, 0⟩ none
      FetchResult.reject (by decide)).2.1⟩

lemma step_noConcur (st : TodoState) (e : Event) (hq : isQrScanEvent e = false)
    (h : noConcur st) : noConcur (step st e) := by
  obtain ⟨h1, h2⟩ := h
  cases e with
  | typeInput s =>
    simp only [step]
    split
    · exact ⟨h1, h2⟩
    · exact ⟨h1, h2⟩
  | pressEnter =>
    simp only [step]
    split
    · rename_i hg
      rw [Bool.and_eq_true] at hg
      have hload : st.isLoading = false := by simpa using hg.2
      have hne : ¬ jsTrim st.taskInput = "" := by simpa using hg.1
      have hif : st.inFlight = 0 := by
        have hn1 : st.inFlight ≠ 1 := fun hh => by
          rw [h2.mpr hh] at hload
          exact Bool.noConfusion hload
        omega
      simp only [submitStart]
      rw [if_neg (show ¬ jsOr none (jsTrim st.taskInput) = "" from hne)]
      refine ⟨?_, ?_⟩
      · show st.inFlight + 1 ≤ 1
        omega
      · show true = true ↔ st.inFlight + 1 = 1
        constructor
        · intro _
          omega
        · intro _
          rfl
    · exact ⟨h1, h2⟩
  | clickAdd =>
    simp only [step]
    split
    · exact ⟨h1, h2⟩
    · rename_i hg
      simp only [addButtonDisabled, Bool.or_eq_true, not_or] at hg
      have hload : st.isLoading = false := by simpa using hg.1
      have hne : ¬ jsTrim st.taskInput = "" := by simpa using hg.2
      have hif : st.inFlight = 0 := by
        have hn1 : st.inFlight ≠ 1 := fun hh => by
          rw [h2.mpr hh] at hload
          exact Bool.noConfusion hload
        omega
      simp only [submitStart]
      rw [if_neg (show ¬ jsOr none (jsTrim st.taskInput) = "" from hne)]
      refine ⟨?_, ?_⟩
      · show st.inFlight + 1 ≤ 1
        omega
      · show true = true ↔ st.inFlight + 1 = 1
        constructor
        · intro _
          omega
        · intro _
          rfl
  | clickQrToggle =>
    simp only [step]
    split
    · exact ⟨h1, h2⟩
    · exact ⟨h1, h2⟩
  | qrScanned d => simp [isQrScanEvent] at hq
  | resolveSubmission f =>
    simp only [step]
    split
    · rename_i hpos
      have hif : st.inFlight = 1 := by omega
      refine ⟨?_, ?_⟩
      · show st.inFlight - 1 ≤ 1
        omega
      · show (submitFinish st f).isLoading = true ↔ st.inFlight - 1 = 1
        rw [submitFinish_isLoading]
        constructor
        · intro hh
          exact absurd hh (by decide)
        · intro hh
          exact absurd hh (by omega)
    · exact ⟨h1, h2⟩

lemma runEvents_noConcur_aux (es : List Event) (st : TodoState) (h0 : noConcur st)
    (h : ∀ e ∈ es, isQrScanEvent e = false) : noConcur (es.foldl step st) := by
  induction es generalizing st with
  | nil => exact h0
  | cons e es ih =>
    exact ih (step st e) (step_noConcur st e (h e (List.mem_cons_self e es)) h0)
      fun x hx => h x (List.mem_cons_of_mem e hx)

/-- C1 fails as stated: the QR-scan callback `handleQrScan` (lines 257–262)
calls `handleAddTask` with no `isLoading` gate, so scanning a code while a
typed submission is still in flight starts a second concurrent submission.
The trace: open the scanner, type "a", press Enter (first submission starts,
the scanner stays mounted), then a scan fires before resolution. -/
theorem c1_counterexample :
    (runEvents [Event.clickQrToggle, Event.typeInput "a", Event.pressEnter,
      Event.qrScanned "x"]).inFlight = 2 := by
  decide

/-- C1 (amended): the Enter-key and Add-button triggers are gated by the
in-flight flag, so along every event sequence containing no QR-scan callback
at most one submission is ever in flight; the QR-scan callback path is not
gated (see `c1_counterexample`). -/
theorem c1_gated_except_qr_scan (es : List Event)
    (h : ∀ e ∈ es, isQrScanEvent e = false) :
    (runEvents es).inFlight ≤ 1 :=
  (runEvents_noConcur_aux es initState ⟨by decide, by decide⟩ h).1

/-- Closed instance of `c1_gated_except_qr_scan` on the trace type "a" then
press Enter. -/
theorem c1_gated_except_qr_scan_witness :
    (∀ e ∈ [Event.typeInput "a", Event.pressEnter], isQrScanEvent e = false) ∧
    (runEvents [Event.typeInput "a", Event.pressEnter]).inFlight ≤ 1 :=
  ⟨by decide,
    c1_gated_except_qr_scan [Event.typeInput "a", Event.pressEnter] (by decide)⟩

/-- C2 fails as stated: after a full start followed by `stopCamera`, the
stream ref is null but `scanIntervalRef.current` still holds the (cleared)
interval id — the source never nulls it (lines 63–65) — so "timer handle is
non-null iff the stream is active" is violated right after `stop()`. -/
theorem c2_counterexample :
    (camRun [CamOp.fullStart 1, CamOp.stop]).hasStream = false ∧
    (camRun [CamOp.fullStart 1, CamOp.stop]).scanInterval.isSome = true := by
  decide

/-- C2 (amended): after every sequence of completed operations (full start,
stop), a sampling timer is ACTIVE iff the stream is active; the handle field
itself survives `stopCamera` un-nulled, which is what breaks the claim as
stated (see `c2_counterexample`). -/
theorem c2_timer_active_iff_stream (ops : List CamOp) :
    timerActive (camRun ops) ↔ (camRun ops).hasStream = true :=
  camRun_foldl_inv ops camInit (by simp [camInit, timerActive])

/-- C7: `stopCamera` is idempotent as a state transformer (a second call is
a no-op and throws nothing), it always leaves the stream ref null, it stops
every track of a held stream, and it cancels the sampling timer whose id the
ref holds. -/
theorem c7_stop_idempotent_and_releases (s : CamState) :
    stopCamera (stopCamera s) = stopCamera s ∧
    (stopCamera s).hasStream = false ∧
    (s.hasStream = true → ∀ b ∈ (stopCamera s).tracks, b = true) ∧
    (∀ id, s.scanInterval = some id → id ∉ (stopCamera s).activeIntervals) :=
  ⟨stopCamera_idem s, stopCamera_hasStream s,
    fun h => stopCamera_tracks_stopped s h,
    fun id h => stopCamera_cancels s id h⟩

/-- Closed instance of `c7_stop_idempotent_and_releases` on a running
session with two live tracks and an active timer with id 1. -/
theorem c7_stop_idempotent_and_releases_witness :
    stopCamera (stopCamera (CamState.mk true [false, false] (some 1) [1] 2)) =
      stopCamera (CamState.mk true [false, false] (some 1) [1] 2) ∧
    (∀ b ∈ (stopCamera (CamState.mk true [false, false] (some 1) [1] 2)).tracks,
      b = true) ∧
    1 ∉ (stopCamera (CamState.mk true [false, false] (some 1) [1] 2)).activeIntervals := by
  have h := c7_stop_idempotent_and_releases (CamState.mk true [false, false] (some 1) [1] 2)
  exact ⟨h.1, h.2.2.1 rfl, h.2.2.2 1 rfl⟩

end TodoSpec
